import Mathlib

/-!
Verification of the dcm-project/k8s-service-provider repository.

The Go sources are shallowly embedded: the Kubernetes / KubeVirt cluster is a
record of resource lists, every service operation is a pure function from the
cluster state (plus its request arguments) to a new cluster state and an
`Except` result, and the label-selector queries the code sends to the API
server are modelled as list filters.  Server-side nondeterminism (the random
SSH-secret-name suffix of `generateSecretName`) is passed in as an explicit
oracle argument.
-/

set_option linter.unusedVariables false

namespace KSP

/-! ## Labels and selectors

Kubernetes labels are string-to-string maps; the embedding uses association
lists with first-match lookup, which is the observable behaviour of a Go map
that never holds duplicate keys. -/

abbrev Labels := List (String × String)

/-- First-match lookup of a label key, `none` when the key is absent
(a Go map read of a missing key yields the zero value). -/
def lookupLabel : Labels → String → Option String
  | [], _ => none
  | (k0, v0) :: rest, k => if k0 = k then some v0 else lookupLabel rest k

/-- Setting a key in a label map (`labels[k] = v` in Go): replace the first
binding of the key, or append a fresh binding. -/
def setLabel : Labels → String → String → Labels
  | [], k, v => [(k, v)]
  | (k0, v0) :: rest, k, v =>
      if k0 = k then (k0, v) :: rest else (k0, v0) :: setLabel rest k v

/-- A label selector is a conjunction of `key=value` requirements. -/
abbrev Selector := List (String × String)

/-- A resource's labels satisfy a selector when every `key=value` pair of the
selector is present. -/
def matchesSelector (sel : Selector) (ls : Labels) : Bool :=
  sel.all fun kv => lookupLabel ls kv.1 = some kv.2

/-- Namespace scoping of a Kubernetes list call: the empty namespace argument
means "all namespaces". -/
def inNamespaceScope (query resourceNs : String) : Bool :=
  query = "" || query = resourceNs

/-- Modelled from the spec: the repository's label conventions.  The file
`internal/deployment/models` defining the label constants and the
`BuildDeploymentLabels` / `BuildDeploymentSelector` /
`BuildManagedResourceSelector` helpers is not part of the provided sources;
the spec and the README document the two conventions
`app-id=<deployment-uuid>` and `managed-by=k8s-service-provider`. -/
def LabelAppID : String := "app-id"

/-- Modelled from the spec: the `managed-by` label key. -/
def LabelManagedBy : String := "managed-by"

/-- Modelled from the spec: the value of the `managed-by` label. -/
def ManagedByValue : String := "k8s-service-provider"

/-- Modelled from the spec: the label recording that the service auto-created
an SSH secret for a VM (`models.LabelSSHSecretCreated`); only its role, not
its literal key, is visible in the provided sources. -/
def LabelSSHSecretCreated : String := "ssh-secret-created"

/-- Modelled from the spec: labels attached to every resource the service
creates for deployment `id`; the spec documents `app-id` as the resource's
deployment ID and `managed-by` as the fixed service marker.  The `name`
argument mirrors the Go signature `BuildDeploymentLabels(id, name)`. -/
def BuildDeploymentLabels (id name : String) : Labels :=
  [(LabelAppID, id), (LabelManagedBy, ManagedByValue)]

/-- Modelled from the spec: the per-ID selector (`app-id=<id>`) used by all
per-ID get and delete operations. -/
def BuildDeploymentSelector (id : String) : Selector :=
  [(LabelAppID, id)]

/-- Modelled from the spec: the selector (`managed-by=k8s-service-provider`)
that restricts list operations to resources this service manages. -/
def BuildManagedResourceSelector : Selector :=
  [(LabelManagedBy, ManagedByValue)]

/-- Merging user labels with the deployment labels, the deployment labels
winning (the Go loop `for k, v := range deploymentLabels { labels[k] = v }`). -/
def mergeLabels (user dep : Labels) : Labels :=
  dep.foldl (fun m kv => setLabel m kv.1 kv.2) user

/-! ## Request and response model (`internal/deployment/models/models.go`) -/

/-- Port configuration of a container deployment request. -/
structure PortConfig where
  containerPort : Int
  servicePort : Int
  deriving DecidableEq, Repr

/-- Container configuration of a deployment request. -/
structure ContainerConfig where
  image : String
  replicas : Option Int
  ports : List PortConfig
  deriving DecidableEq, Repr

/-- `spec.container` of a container deployment request. -/
structure ContainerSpec where
  container : ContainerConfig
  deriving DecidableEq, Repr

/-- VM configuration of a deployment request (`VMConfig`, including the
optional SSH key fields used by `ensureSSHKeySecret`). -/
structure VMConfig where
  ram : Int
  cpu : Int
  os : String
  sshPublicKey : Option String
  sshKeyName : Option String
  deriving DecidableEq, Repr

/-- `spec.vm` of a VM deployment request. -/
structure VMSpec where
  vm : VMConfig
  deriving DecidableEq, Repr

/-- The request `spec` field is `interface{}` in Go; after the handler's
`parseAndValidateSpec` it holds a typed container or VM spec, and the
services type-assert it.  `rawSpec` stands for any other dynamic value, on
which the type assertions fail. -/
inductive SpecValue where
  | containerSpec (s : ContainerSpec)
  | vmSpec (s : VMSpec)
  | rawSpec (s : String)
  deriving DecidableEq, Repr

/-- Deployment request metadata.  The Go field `Namespace` is rendered as
`nspace` because `namespace` is a Lean keyword. -/
structure Metadata where
  name : String
  nspace : String
  labels : Labels
  deriving DecidableEq, Repr

/-- A create/update deployment request.  `Kind` is a string type in Go with
constants `"container"` and `"vm"`. -/
structure DeploymentRequest where
  kind : String
  metadata : Metadata
  spec : SpecValue
  deriving DecidableEq, Repr

/-- A deployment response (ID, kind, metadata, and status phase; the
timestamps of the Go struct are not modelled). -/
structure DeploymentResponse where
  id : String
  kind : String
  metadata : Metadata
  phase : String
  readyReplicas : Int
  deriving DecidableEq, Repr

/-- A list-deployments request (`ListDeploymentsRequest`). -/
structure ListDeploymentsRequest where
  nspace : String
  kind : String
  limit : Int
  offset : Int
  deriving DecidableEq, Repr

/-- Pagination metadata of a list response. -/
structure Pagination where
  limit : Int
  offset : Int
  total : Int
  hasMore : Bool
  deriving DecidableEq, Repr

/-- A list-deployments response. -/
structure ListDeploymentsResponse where
  deployments : List DeploymentResponse
  pagination : Pagination
  deriving DecidableEq, Repr

/-! ## Error model (`internal/deployment/models/errors.go`) -/

/-- Service-layer errors.  The three typed errors mirror
`ErrDeploymentNotFound`, `ErrMultipleDeploymentsFound` and
`ErrDeploymentAlreadyExists`; `other` stands for every remaining Go `error`
value (wrapped errors included), on which the type assertions of the
`Is...Error` helpers fail. -/
inductive DeploymentError where
  | deploymentNotFound (id : String) (nspace : Option String)
  | multipleDeploymentsFound (id : String) (count : Nat) (namespaces : List String)
  | deploymentAlreadyExists (id : String) (nspace : String) (kind : String)
  | other (msg : String)
  deriving DecidableEq, Repr

/-- `IsNotFoundError`: type assertion on `*ErrDeploymentNotFound`. -/
def IsNotFoundError : DeploymentError → Bool
  | .deploymentNotFound .. => true
  | _ => false

/-- `IsMultipleFoundError`: type assertion on `*ErrMultipleDeploymentsFound`. -/
def IsMultipleFoundError : DeploymentError → Bool
  | .multipleDeploymentsFound .. => true
  | _ => false

/-- `IsAlreadyExistsError`: type assertion on `*ErrDeploymentAlreadyExists`. -/
def IsAlreadyExistsError : DeploymentError → Bool
  | .deploymentAlreadyExists .. => true
  | _ => false

/-- `IsConflictError`: an already-exists or multiple-found error. -/
def IsConflictError : DeploymentError → Bool
  | .deploymentAlreadyExists .. => true
  | .multipleDeploymentsFound .. => true
  | _ => false

/-- The `Error()` strings of `errors.go` (used when errors are wrapped with
`fmt.Errorf`). -/
def errMessage : DeploymentError → String
  | .deploymentNotFound id none => "deployment with ID " ++ id ++ " not found"
  | .deploymentNotFound id (some ns) =>
      "deployment with ID " ++ id ++ " not found in namespace " ++ ns
  | .multipleDeploymentsFound id count [] =>
      "multiple deployments found with ID " ++ id ++ " (" ++ toString count ++ " conflicts)"
  | .multipleDeploymentsFound id _ nss =>
      "multiple deployments found with ID " ++ id ++ " across namespaces: [" ++
        String.intercalate " " nss ++ "]"
  | .deploymentAlreadyExists id ns kind =>
      "deployment with ID " ++ id ++ " already exists in namespace " ++ ns ++
        " (kind: " ++ kind ++ ")"
  | .other msg => msg

/-! ## Cluster state

The externally stored resources the service reads and writes: apps/v1
Deployments, core/v1 Services and Secrets, KubeVirt VirtualMachines, and the
set of namespaces. -/

/-- An apps/v1 Deployment as far as the service observes it. -/
structure K8sDeployment where
  name : String
  nspace : String
  labels : Labels
  readyReplicas : Int
  specReplicas : Int
  deriving DecidableEq, Repr

/-- A core/v1 Service. -/
structure K8sService where
  name : String
  nspace : String
  labels : Labels
  deriving DecidableEq, Repr

/-- A core/v1 Secret. -/
structure K8sSecret where
  name : String
  nspace : String
  labels : Labels
  deriving DecidableEq, Repr

/-- A KubeVirt VirtualMachine status condition (type and status strings). -/
structure VMCondition where
  ctype : String
  status : String
  deriving DecidableEq, Repr

/-- A KubeVirt VirtualMachine as far as the service observes it. -/
structure K8sVM where
  name : String
  nspace : String
  labels : Labels
  ready : Bool
  conditions : List VMCondition
  deriving DecidableEq, Repr

/-- The cluster state held by the external API server. -/
structure ClusterState where
  deployments : List K8sDeployment
  services : List K8sService
  secrets : List K8sSecret
  vms : List K8sVM
  namespaces : List String
  deriving DecidableEq, Repr

/-! ## Response conversion and phases -/

/-- `getDeploymentPhase` of the container service. -/
def getDeploymentPhase (d : K8sDeployment) : String :=
  if d.readyReplicas = 0 then "pending"
  else if d.readyReplicas = d.specReplicas then "running"
  else "pending"

/-- The condition loop of `getVMPhase`: the first `Ready=True` condition
yields `running`, the first `Failure=True` condition yields `failed`. -/
def vmPhaseFromConditions : List VMCondition → String
  | [] => "pending"
  | cond :: rest =>
      if cond.ctype = "Ready" ∧ cond.status = "True" then "running"
      else if cond.ctype = "Failure" ∧ cond.status = "True" then "failed"
      else vmPhaseFromConditions rest

/-- `getVMPhase` of the VM service. -/
def getVMPhase (v : K8sVM) : String :=
  if v.ready then "running" else vmPhaseFromConditions v.conditions

/-- The response `GetContainer` builds from the first matching Deployment
(the response ID is the searched ID). -/
def containerGetResponse (id : String) (d : K8sDeployment) : DeploymentResponse :=
  { id := id, kind := "container",
    metadata := { name := d.name, nspace := d.nspace, labels := d.labels },
    phase := getDeploymentPhase d, readyReplicas := d.readyReplicas }

/-- The response `ListContainers` builds from a listed Deployment (the
response ID is read from the `app-id` label). -/
def containerListResponse (d : K8sDeployment) : DeploymentResponse :=
  { id := (lookupLabel d.labels LabelAppID).getD "", kind := "container",
    metadata := { name := d.name, nspace := d.nspace, labels := d.labels },
    phase := getDeploymentPhase d, readyReplicas := d.readyReplicas }

/-- The response `GetVM` builds from the first matching VirtualMachine. -/
def vmGetResponse (id : String) (v : K8sVM) : DeploymentResponse :=
  { id := id, kind := "vm",
    metadata := { name := v.name, nspace := v.nspace, labels := v.labels },
    phase := getVMPhase v, readyReplicas := 0 }

/-- The response `ListVMs` builds from a listed VirtualMachine. -/
def vmListResponse (v : K8sVM) : DeploymentResponse :=
  { id := (lookupLabel v.labels LabelAppID).getD "", kind := "vm",
    metadata := { name := v.name, nspace := v.nspace, labels := v.labels },
    phase := getVMPhase v, readyReplicas := 0 }

/-- The effective namespace of a request (`"default"` when empty). -/
def effectiveNs (nsp : String) : String :=
  if nsp = "" then "default" else nsp

/-- The skip/truncate loop shared by `ListContainers` and `ListVMs`:
`for i, item := range items { if i < offset { continue };
if len(responses) >= limit { break }; responses = append(...) }`,
with `i` the running index and `got` the number of responses collected. -/
def listLoop (f : α → β) (limit offset : Int) : List α → Int → Int → List β
  | [], _, _ => []
  | x :: xs, i, got =>
      if i < offset then listLoop f limit offset xs (i + 1) got
      else if got ≥ limit then []
      else f x :: listLoop f limit offset xs (i + 1) (got + 1)

/-- `ensureNamespace`: create the namespace when it does not exist. -/
def ensureNamespace (c : ClusterState) (nsp : String) : ClusterState :=
  if nsp ∈ c.namespaces then c
  else { c with namespaces := c.namespaces ++ [nsp] }

namespace ContainerService

/-- The Deployments returned by the API server for a list across all
namespaces with the `app-id=<id>` selector. -/
def deploymentsMatchingID (c : ClusterState) (id : String) : List K8sDeployment :=
  c.deployments.filter
    (fun d => matchesSelector (BuildDeploymentSelector id) d.labels)

/-- `ContainerService.GetContainer`: list Deployments across all namespaces
with the `app-id=<id>` selector; not-found when the result is empty,
otherwise the first item. -/
def getContainer (c : ClusterState) (id : String) :
    Except DeploymentError DeploymentResponse :=
  match deploymentsMatchingID c id with
  | [] => .error (.deploymentNotFound id none)
  | d :: _ => .ok (containerGetResponse id d)

/-- The Deployments returned by the API server for
`Deployments(namespace).List` with the managed-resource selector. -/
def managedDeploymentsIn (c : ClusterState) (nsq : String) : List K8sDeployment :=
  c.deployments.filter
    (fun d => inNamespaceScope nsq d.nspace &&
      matchesSelector BuildManagedResourceSelector d.labels)

/-- `ContainerService.ListContainers`: list managed Deployments in the
requested namespace scope, then apply the offset/limit loop. -/
def listContainers (c : ClusterState) (nsq : String) (limit offset : Int) :
    List DeploymentResponse :=
  listLoop containerListResponse limit offset (managedDeploymentsIn c nsq) 0 0

/-- `ContainerService.DeleteContainer`: delete the Deployments matching the
`app-id=<id>` selector in the effective namespace, then delete the matching
Services there. -/
def deleteContainer (c : ClusterState) (id nsp0 : String) :
    ClusterState × Except DeploymentError Unit :=
  let nsp := effectiveNs nsp0
  let sel := BuildDeploymentSelector id
  let c1 := { c with
    deployments := c.deployments.filter
      (fun d => !(d.nspace = nsp && matchesSelector sel d.labels)),
    services := c.services.filter
      (fun s => !(s.nspace = nsp && matchesSelector sel s.labels)) }
  (c1, .ok ())

/-- `ContainerService.createDeployment`: build the apps/v1 Deployment named
`<name>-<id[:8]>` carrying the user labels merged with the deployment
labels, and create it in the namespace. -/
def createK8sDeployment (c : ClusterState) (name nsp : String)
    (spec : ContainerSpec) (userLabels : Labels) (id : String) : ClusterState :=
  let labels := mergeLabels userLabels (BuildDeploymentLabels id name)
  let d : K8sDeployment :=
    { name := name ++ "-" ++ id.take 8, nspace := nsp, labels := labels,
      readyReplicas := 0, specReplicas := (spec.container.replicas).getD 1 }
  { c with deployments := c.deployments ++ [d] }

/-- `ContainerService.createService`: build the NodePort Service named
`<name>-service-<id[:8]>` carrying the merged labels. -/
def createK8sService (c : ClusterState) (name nsp : String)
    (spec : ContainerSpec) (userLabels : Labels) (id : String) : ClusterState :=
  let labels := mergeLabels userLabels (BuildDeploymentLabels id name)
  let s : K8sService :=
    { name := name ++ "-service-" ++ id.take 8, nspace := nsp, labels := labels }
  { c with services := c.services ++ [s] }

/-- `ContainerService.CreateContainer`: type-assert the spec, ensure the
namespace, create the Deployment, and create the Service when ports are
specified. -/
def createContainer (c : ClusterState) (req : DeploymentRequest) (id : String) :
    ClusterState × Except DeploymentError Unit :=
  match req.spec with
  | .containerSpec cs =>
      let nsp := effectiveNs req.metadata.nspace
      let c1 := ensureNamespace c nsp
      let c2 := createK8sDeployment c1 req.metadata.name nsp cs req.metadata.labels id
      let c3 :=
        if cs.container.ports ≠ [] then
          createK8sService c2 req.metadata.name nsp cs req.metadata.labels id
        else c2
      (c3, .ok ())
  | _ => (c, .error (.other "invalid container spec format"))

/-- `ContainerService.UpdateContainer`: delete the existing deployment (a
failure of the deletion is only logged and discarded), then recreate. -/
def updateContainer (c : ClusterState) (req : DeploymentRequest) (id : String) :
    ClusterState × Except DeploymentError Unit :=
  let nsp := effectiveNs req.metadata.nspace
  let del := deleteContainer c id nsp
  createContainer del.1 req id

end ContainerService

namespace VMService

/-- `validateSSHPublicKey`: the accepted SSH public key type markers. -/
def validSSHKeyTypes : List String :=
  ["ssh-rsa ", "ssh-ed25519 ", "ecdsa-sha2-nistp256 ", "ecdsa-sha2-nistp384 ",
   "ecdsa-sha2-nistp521 ", "ssh-dss "]

/-- `validateSSHPublicKey`: trim, reject the empty key, and require one of
the known key type markers at the start. -/
def validateSSHPublicKey (publicKey : String) : Bool :=
  let k := publicKey.trim
  if k = "" then false
  else validSSHKeyTypes.any fun p => k.startsWith p

/-- Lowercase alphanumeric character (DNS-1123). -/
def isLowerAlnum (ch : Char) : Bool :=
  (ch ≥ 'a' && ch ≤ 'z') || (ch ≥ '0' && ch ≤ '9')

/-- Tail of the DNS-1123 subdomain check: middle characters may also be
hyphens, the last character must be alphanumeric. -/
def dnsBody : List Char → Bool
  | [] => true
  | [ch] => isLowerAlnum ch
  | ch :: rest => (isLowerAlnum ch || ch = '-') && dnsBody rest

/-- The regular expression `^[a-z0-9]([-a-z0-9]*[a-z0-9])?$` of
`validateSecretName`. -/
def dns1123Match (s : String) : Bool :=
  match s.toList with
  | [] => false
  | ch :: rest => isLowerAlnum ch && dnsBody rest

/-- `validateSecretName`: nonempty, DNS-1123 subdomain, at most 253
characters. -/
def validateSecretName (name : String) : Bool :=
  !(name = "") && dns1123Match name && name.length ≤ 253

/-- `generateSecretName`: `<deploymentName>-ssh-key-<random suffix>`; the
random suffix is supplied as the oracle `gen`. -/
def generateSecretName (deploymentName gen : String) : String :=
  deploymentName ++ "-ssh-key-" ++ gen

/-- `createSSHKeySecret`: create the Secret carrying
`BuildDeploymentLabels(deploymentID, secretName)`. -/
def createSSHKeySecret (c : ClusterState) (nsp secretName publicKey id : String) :
    ClusterState :=
  { c with secrets := c.secrets ++
      [{ name := secretName, nspace := nsp,
         labels := BuildDeploymentLabels id secretName }] }

/-- Whether a secret of the given name exists in the namespace. -/
def secretExists (c : ClusterState) (nsp name : String) : Bool :=
  c.secrets.any fun s => s.name = name && s.nspace = nsp

/-- The validate-inputs-if-provided step of `ensureSSHKeySecret`: a provided
public key that fails validation. -/
def providedKeyInvalid : Option String → Bool
  | some k => ! validateSSHPublicKey k
  | none => false

/-- `ensureSSHKeySecret`: returns the secret name to reference and whether a
randomly named secret was created; `gen` is the random-suffix oracle. -/
def ensureSSHKeySecret (c : ClusterState) (nsp : String) (vmCfg : VMConfig)
    (id gen : String) : ClusterState × Except DeploymentError (String × Bool) :=
  if vmCfg.sshPublicKey = none ∧ vmCfg.sshKeyName = none then (c, .ok ("", false))
  else
    if providedKeyInvalid vmCfg.sshPublicKey then
      (c, .error (.other "invalid SSH public key"))
    else
      match vmCfg.sshKeyName with
      | some n =>
          if ! validateSecretName n then (c, .error (.other "invalid secret name"))
          else if secretExists c nsp n then (c, .ok (n, false))
          else
            match vmCfg.sshPublicKey with
            | none =>
                (c, .error (.other ("secret " ++ n ++
                  " not found and no ssh_public_key provided")))
            | some k => (createSSHKeySecret c nsp n k id, .ok (n, false))
      | none =>
          match vmCfg.sshPublicKey with
          | some k =>
              let sname := generateSecretName ("vm-" ++ id.take 8) gen
              (createSSHKeySecret c nsp sname k id, .ok (sname, true))
          | none => (c, .ok ("", false))

/-- `VMService.CreateVM`: type-assert the spec, ensure the namespace, ensure
the SSH key secret, then create the VirtualMachine labelled with
`BuildDeploymentLabels(id, name)` (plus the secret-created marker when a
randomly named secret was created).  The VirtualMachine uses
`GenerateName: "<name>-"`, so its final name gets a server-side suffix. -/
def createVM (c : ClusterState) (req : DeploymentRequest) (id gen : String) :
    ClusterState × Except DeploymentError Unit :=
  match req.spec with
  | .vmSpec vs =>
      let nsp := effectiveNs req.metadata.nspace
      let c1 := ensureNamespace c nsp
      match ensureSSHKeySecret c1 nsp vs.vm id gen with
      | (c2, .error e) =>
          (c2, .error (.other ("failed to ensure SSH key secret: " ++ errMessage e)))
      | (c2, .ok (_, wasCreated)) =>
          let labels0 := BuildDeploymentLabels id req.metadata.name
          let labels :=
            if wasCreated then setLabel labels0 LabelSSHSecretCreated "true"
            else labels0
          let vm : K8sVM :=
            { name := req.metadata.name ++ "-", nspace := nsp, labels := labels,
              ready := false, conditions := [] }
          ({ c2 with vms := c2.vms ++ [vm] }, .ok ())
  | _ => (c, .error (.other "invalid VM spec format"))

/-- The VirtualMachines returned by the API server for a list across all
namespaces with the `app-id=<id>` selector. -/
def vmsMatchingID (c : ClusterState) (id : String) : List K8sVM :=
  c.vms.filter
    (fun v => matchesSelector (BuildDeploymentSelector id) v.labels)

/-- `VMService.GetVM`: list VirtualMachines across all namespaces with the
`app-id=<id>` selector; not-found when empty, otherwise the first item. -/
def getVM (c : ClusterState) (id : String) :
    Except DeploymentError DeploymentResponse :=
  match vmsMatchingID c id with
  | [] => .error (.deploymentNotFound id none)
  | v :: _ => .ok (vmGetResponse id v)

/-- `VMService.DeleteVM`: when the first matching VirtualMachine carries the
secret-created marker, delete the matching Secrets in the namespace; then
delete the matching VirtualMachines. -/
def deleteVM (c : ClusterState) (id nsp0 : String) :
    ClusterState × Except DeploymentError Unit :=
  let nsp := effectiveNs nsp0
  let sel := BuildDeploymentSelector id
  let matching := c.vms.filter
    (fun v => v.nspace = nsp && matchesSelector sel v.labels)
  let keptSecrets :=
    c.secrets.filter (fun s => !(s.nspace = nsp && matchesSelector sel s.labels))
  let c1 :=
    match matching with
    | v :: _ =>
        if (lookupLabel v.labels LabelSSHSecretCreated).getD "" = "true" then
          { c with secrets := keptSecrets }
        else c
    | [] => c
  let keptVMs :=
    c1.vms.filter (fun v => !(v.nspace = nsp && matchesSelector sel v.labels))
  let c2 := { c1 with vms := keptVMs }
  (c2, .ok ())

/-- `VMService.UpdateVM`: delete the existing VM (a failure of the deletion
is only logged and discarded), then recreate. -/
def updateVM (c : ClusterState) (req : DeploymentRequest) (id gen : String) :
    ClusterState × Except DeploymentError Unit :=
  let nsp := effectiveNs req.metadata.nspace
  let del := deleteVM c id nsp
  createVM del.1 req id gen

/-- The VirtualMachines returned by the API server for
`VirtualMachine(namespace).List` with the managed-resource selector. -/
def managedVMsIn (c : ClusterState) (nsq : String) : List K8sVM :=
  c.vms.filter
    (fun v => inNamespaceScope nsq v.nspace &&
      matchesSelector BuildManagedResourceSelector v.labels)

/-- `VMService.ListVMs`: list managed VirtualMachines in the requested
namespace scope, then apply the offset/limit loop. -/
def listVMs (c : ClusterState) (nsq : String) (limit offset : Int) :
    List DeploymentResponse :=
  listLoop vmListResponse limit offset (managedVMsIn c nsq) 0 0

end VMService

namespace DeploymentService

/-- `DeploymentService.GetDeploymentByID`: try the container lookup and the
VM lookup, collect the successes; more than one is a multiple-found
conflict, exactly one is returned, none is not-found. -/
def getDeploymentByID (c : ClusterState) (id : String) :
    Except DeploymentError DeploymentResponse :=
  let fromContainer :=
    match ContainerService.getContainer c id with
    | .ok d => [d]
    | .error _ => []
  let fromVM :=
    match VMService.getVM c id with
    | .ok d => [d]
    | .error _ => []
  let found := fromContainer ++ fromVM
  if found.length > 1 then
    .error (.multipleDeploymentsFound id found.length
      (found.map fun d => d.metadata.nspace))
  else
    match found with
    | d :: _ => .ok d
    | [] => .error (.deploymentNotFound id none)

/-- `DeploymentService.CreateDeployment`: check global ID uniqueness through
`GetDeploymentByID`, then dispatch on the request kind.  `gen` is the
random-suffix oracle threaded to the VM sub-service. -/
def createDeployment (c : ClusterState) (req : DeploymentRequest)
    (id gen : String) : ClusterState × Except DeploymentError Unit :=
  match getDeploymentByID c id with
  | .ok existing =>
      (c, .error (.deploymentAlreadyExists id existing.metadata.nspace existing.kind))
  | .error e =>
      if IsMultipleFoundError e then (c, .error e)
      else if ! IsNotFoundError e then
        (c, .error (.other ("failed to validate deployment ID uniqueness: " ++
          errMessage e)))
      else
        if req.kind = "container" then ContainerService.createContainer c req id
        else if req.kind = "vm" then VMService.createVM c req id gen
        else (c, .error (.other ("unsupported deployment kind: " ++ req.kind)))

/-- `DeploymentService.UpdateDeployment`: dispatch on the request kind. -/
def updateDeployment (c : ClusterState) (req : DeploymentRequest)
    (id gen : String) : ClusterState × Except DeploymentError Unit :=
  if req.kind = "container" then ContainerService.updateContainer c req id
  else if req.kind = "vm" then VMService.updateVM c req id gen
  else (c, .error (.other ("unsupported deployment kind: " ++ req.kind)))

/-- `DeploymentService.DeleteDeployment`: find the deployment by ID (errors
propagate), then delete based on the found kind and namespace. -/
def deleteDeployment (c : ClusterState) (id : String) :
    ClusterState × Except DeploymentError Unit :=
  match getDeploymentByID c id with
  | .error e => (c, .error e)
  | .ok dep =>
      if dep.kind = "container" then
        ContainerService.deleteContainer c id dep.metadata.nspace
      else if dep.kind = "vm" then
        VMService.deleteVM c id dep.metadata.nspace
      else (c, .error (.other ("unsupported deployment kind: " ++ dep.kind)))

/-- The merge-and-slice pagination step of `ListDeployments` (lines 176-188):
empty when the offset reaches the total, otherwise the slice
`allDeployments[start:end]` with `end` clamped to the total. -/
def paginateWindow (xs : List DeploymentResponse) (limit offset : Int) :
    List DeploymentResponse :=
  let total : Int := xs.length
  if offset ≥ total then []
  else
    let e := offset + limit
    let e2 := if e > total then total else e
    (xs.take e2.toNat).drop offset.toNat

/-- `DeploymentService.ListDeployments`: list containers when the kind filter
is empty or `container`, append VMs when it is empty or `vm` (each
sub-service invoked with the request limit and offset `0`), then apply the
pagination step and report the pagination fields.  The sub-service list
calls are modelled as total, so the error paths of the Go function do not
arise. -/
def listDeployments (c : ClusterState) (req : ListDeploymentsRequest) :
    ListDeploymentsResponse :=
  let fromContainers :=
    if req.kind = "" ∨ req.kind = "container" then
      ContainerService.listContainers c req.nspace req.limit 0
    else []
  let fromVMs :=
    if req.kind = "" ∨ req.kind = "vm" then
      VMService.listVMs c req.nspace req.limit 0
    else []
  let all := fromContainers ++ fromVMs
  let total : Int := all.length
  { deployments := paginateWindow all req.limit req.offset,
    pagination :=
      { limit := req.limit, offset := req.offset, total := total,
        hasMore := decide (req.offset + req.limit < total) } }

end DeploymentService

/-! ## HTTP handler status mapping (deployment API handlers) -/

namespace Handler

/-- Status mapping of `GetDeployment` for a service error: 409 on
multiple-found, 404 on not-found, 500 otherwise. -/
def getDeploymentErrorStatus (e : DeploymentError) : Nat :=
  if IsMultipleFoundError e then 409
  else if IsNotFoundError e then 404
  else 500

/-- Status mapping of `DeleteDeployment` for a service error: 409 on
multiple-found, 404 on not-found, 500 otherwise. -/
def deleteDeploymentErrorStatus (e : DeploymentError) : Nat :=
  if IsMultipleFoundError e then 409
  else if IsNotFoundError e then 404
  else 500

/-- Status mapping of `CreateDeployment` for a service error: 409 on a
conflict (already-exists or multiple-found), 500 otherwise. -/
def createDeploymentErrorStatus (e : DeploymentError) : Nat :=
  if IsConflictError e then 409
  else 500

end Handler

/-! ## Routers and main wiring -/

/-- A registered route: HTTP method and path pattern. -/
structure Route where
  method : String
  path : String
  deriving DecidableEq, Repr

/-- The routes registered by the deployment `SetupRouter`
(`internal/api/router.go`): the `/api/v1` group holds the health check and
the `/deployments` sub-group. -/
def deploymentRoutes : List Route :=
  let v1 := "/api/v1"
  let dep := v1 ++ "/deployments"
  [ { method := "GET", path := v1 ++ "/health" },
    { method := "POST", path := dep },
    { method := "GET", path := dep },
    { method := "GET", path := dep ++ "/:id" },
    { method := "PUT", path := dep ++ "/:id" },
    { method := "DELETE", path := dep ++ "/:id" } ]

/-- The routes registered by the namespace `SetupRouter`
(`internal/namespace/api/router.go`). -/
def namespaceRoutes : List Route :=
  let v1 := "/api/v1"
  [ { method := "POST", path := v1 ++ "/namespaces" },
    { method := "GET", path := v1 ++ "/health" } ]

/-- The Kubernetes client handle created once in `main`; only its identity
matters to the wiring model. -/
structure K8sClient where
  token : Nat
  deriving DecidableEq, Repr

/-- The server-relevant part of the configuration (`ServerConfig`). -/
structure ServerConfig where
  host : String
  port : Int
  deriving DecidableEq, Repr

/-- The deployment service as wired in `main`: it holds the shared client. -/
structure DeploymentServiceWiring where
  client : K8sClient
  deriving DecidableEq, Repr

/-- The namespace service as wired in `main`: it holds the shared client. -/
structure NamespaceServiceWiring where
  client : K8sClient
  deriving DecidableEq, Repr

/-- An HTTP server as configured in `main`: bind address and routes. -/
structure HTTPServer where
  host : String
  port : Int
  routes : List Route
  deriving DecidableEq, Repr

/-- Everything `main` constructs before starting the listeners. -/
structure MainWiring where
  deployService : DeploymentServiceWiring
  namespaceService : NamespaceServiceWiring
  servers : List HTTPServer
  deriving DecidableEq, Repr

/-- The wiring performed by `main`: one shared Kubernetes client, both
services built from it, the deployment server on the configured port and the
namespace server on port 8081, each started in its own goroutine. -/
def mainWiring (cfg : ServerConfig) (client : K8sClient) : MainWiring :=
  let deployService : DeploymentServiceWiring := { client := client }
  let namespaceService : NamespaceServiceWiring := { client := client }
  { deployService := deployService,
    namespaceService := namespaceService,
    servers :=
      [ { host := cfg.host, port := cfg.port, routes := deploymentRoutes },
        { host := cfg.host, port := 8081, routes := namespaceRoutes } ] }

/-! ## Helper lemmas -/

theorem lookupLabel_setLabel_self (m : Labels) (k v : String) :
    lookupLabel (setLabel m k v) k = some v := by
  induction m with
  | nil => simp [setLabel, lookupLabel]
  | cons kv rest ih =>
      obtain ⟨k0, v0⟩ := kv
      by_cases h : k0 = k
      · simp [setLabel, lookupLabel, h]
      · simp [setLabel, lookupLabel, h, ih]

theorem lookupLabel_setLabel_ne (m : Labels) (k' v k : String) (h : k' ≠ k) :
    lookupLabel (setLabel m k' v) k = lookupLabel m k := by
  induction m with
  | nil => simp [setLabel, lookupLabel, h]
  | cons kv rest ih =>
      obtain ⟨k0, v0⟩ := kv
      by_cases h0 : k0 = k'
      · subst h0
        simp [setLabel, lookupLabel, h]
      · by_cases h1 : k0 = k
        · simp [setLabel, lookupLabel, h0, h1, Ne.symm h]
        · simp [setLabel, lookupLabel, h0, h1, ih]

/-- Merging the deployment labels over any user labels always leaves the
`app-id` label bound to the deployment ID. -/
theorem lookupLabel_merge_appID (user : Labels) (id name : String) :
    lookupLabel (mergeLabels user (BuildDeploymentLabels id name)) LabelAppID
      = some id := by
  show lookupLabel
    (setLabel (setLabel user LabelAppID id) LabelManagedBy ManagedByValue)
    LabelAppID = some id
  rw [lookupLabel_setLabel_ne _ _ _ _ (by decide), lookupLabel_setLabel_self]

/-- The label map built for a created VM or Secret binds `app-id` to the
deployment ID, also after the secret-created marker is added. -/
theorem lookupLabel_buildLabels_appID (id name : String) :
    lookupLabel (BuildDeploymentLabels id name) LabelAppID = some id := by
  simp [BuildDeploymentLabels, lookupLabel]

theorem lookupLabel_buildLabels_marked_appID (id name : String) :
    lookupLabel (setLabel (BuildDeploymentLabels id name) LabelSSHSecretCreated "true")
      LabelAppID = some id := by
  rw [lookupLabel_setLabel_ne _ _ _ _ (by decide), lookupLabel_buildLabels_appID]

/-- The offset/limit loop at offset `0` takes the first `limit` items. -/
theorem listLoop_zero_offset (f : α → β) (L : Int) :
    ∀ (xs : List α) (i g : Int), 0 ≤ i → 0 ≤ g →
      listLoop f L 0 xs i g = (xs.take (L - g).toNat).map f := by
  intro xs
  induction xs with
  | nil => intro i g hi hg; simp [listLoop]
  | cons x xs ih =>
      intro i g hi hg
      rw [listLoop]
      rw [if_neg (by omega)]
      by_cases hgL : g ≥ L
      · rw [if_pos hgL]
        have h0 : (L - g).toNat = 0 := by omega
        simp [h0]
      · rw [if_neg hgL]
        have h1 : (L - g).toNat = (L - (g + 1)).toNat + 1 := by omega
        rw [h1, List.take_succ_cons, List.map_cons, ih (i + 1) (g + 1) (by omega) (by omega)]

/-- Length of the truncated list: the limit caps the number of items. -/
theorem listLoop_zero_offset_length (f : α → β) (L : Int) (xs : List α)
    (hL : 0 ≤ L) :
    (listLoop f L 0 xs 0 0).length = min L.toNat xs.length := by
  rw [listLoop_zero_offset f L xs 0 0 le_rfl le_rfl]
  simp [List.length_take]

/-- The pagination step computes the slice
`xs[offset : min (offset+limit) (length xs)]`. -/
theorem paginateWindow_eq_slice (xs : List DeploymentResponse) (L O : Int)
    (hL : 1 ≤ L) (hO : 0 ≤ O) :
    DeploymentService.paginateWindow xs L O =
      (xs.take (min (O + L) (xs.length : Int)).toNat).drop O.toNat := by
  have hdef : DeploymentService.paginateWindow xs L O =
      if O ≥ (xs.length : Int) then []
      else
        (xs.take (if O + L > (xs.length : Int) then (xs.length : Int)
          else O + L).toNat).drop O.toNat := rfl
  rw [hdef]
  by_cases h : O ≥ (xs.length : Int)
  · rw [if_pos h]
    symm
    apply List.drop_eq_nil_of_le
    rw [List.length_take]
    have h1 : min (O + L) (xs.length : Int) ≤ (xs.length : Int) := min_le_right _ _
    omega
  · rw [if_neg h]
    have he : (if O + L > (xs.length : Int) then (xs.length : Int) else O + L)
        = min (O + L) (xs.length : Int) := by
      rcases le_or_lt (O + L) (xs.length : Int) with h1 | h1
      · rw [min_eq_left h1, if_neg (by omega)]
      · rw [min_eq_right (by omega), if_pos h1]
    rw [he]

/-! ## C1: merge-and-slice pagination of ListDeployments -/

/-- C1: for every list request with limit `L ≥ 1` and offset `O ≥ 0` (and no
kind filter, so that both sub-services are invoked), `ListDeployments`
returns the slice `merged[O : min (O+L) (length merged)]` of the
concatenation `merged = containers ++ vms` — the empty list when
`O ≥ length merged` — together with `Limit = L`, `Offset = O`,
`Total = length merged` and `HasMore = (O + L < length merged)`. -/
theorem listDeployments_merge_slice (c : ClusterState)
    (req : ListDeploymentsRequest) (hK : req.kind = "")
    (hL : 1 ≤ req.limit) (hO : 0 ≤ req.offset) :
    DeploymentService.listDeployments c req =
      (let merged := ContainerService.listContainers c req.nspace req.limit 0 ++
        VMService.listVMs c req.nspace req.limit 0
      { deployments :=
          (merged.take (min (req.offset + req.limit) (merged.length : Int)).toNat).drop
            req.offset.toNat,
        pagination :=
          { limit := req.limit, offset := req.offset, total := (merged.length : Int),
            hasMore := decide (req.offset + req.limit < (merged.length : Int)) } }) := by
  simp only [DeploymentService.listDeployments, hK, true_or, if_true]
  rw [paginateWindow_eq_slice _ _ _ hL hO]

def wCluster : ClusterState :=
  { deployments :=
      [ { name := "d1", nspace := "default",
          labels := [("app-id", "a1"), ("managed-by", "k8s-service-provider")],
          readyReplicas := 0, specReplicas := 1 },
        { name := "d2", nspace := "default",
          labels := [("app-id", "a2"), ("managed-by", "k8s-service-provider")],
          readyReplicas := 1, specReplicas := 1 } ],
    services := [],
    secrets := [],
    vms :=
      [ { name := "v1", nspace := "default",
          labels := [("app-id", "a3"), ("managed-by", "k8s-service-provider")],
          ready := false, conditions := [] } ],
    namespaces := ["default"] }

def wListReq : ListDeploymentsRequest :=
  { nspace := "", kind := "", limit := 2, offset := 1 }

/-- Witness for C1 at a concrete cluster of two container deployments and
one VM with limit 2 and offset 1. -/
theorem listDeployments_merge_slice_witness :
    wListReq.kind = "" ∧ 1 ≤ wListReq.limit ∧ 0 ≤ wListReq.offset ∧
    (DeploymentService.listDeployments wCluster wListReq).deployments.length = 2 ∧
    (DeploymentService.listDeployments wCluster wListReq).pagination.total = 3 ∧
    (DeploymentService.listDeployments wCluster wListReq).pagination.hasMore = false := by
  have h := listDeployments_merge_slice wCluster wListReq rfl (by decide) (by decide)
  refine ⟨rfl, by decide, by decide, ?_, ?_, ?_⟩ <;> rw [h] <;> decide

/-! ## C2: the Total field of the pagination -/

/-- Claim-side definition, following the claim's words: the total number of
managed resources in the cluster that match the request's kind and namespace
filters. -/
def claimMatchingTotal (c : ClusterState) (req : ListDeploymentsRequest) : Nat :=
  (if req.kind = "" ∨ req.kind = "container" then
    (ContainerService.managedDeploymentsIn c req.nspace).length else 0) +
  (if req.kind = "" ∨ req.kind = "vm" then
    (VMService.managedVMsIn c req.nspace).length else 0)

/-- A cluster holding two managed container deployments and no VMs. -/
def c2Cluster : ClusterState :=
  { deployments :=
      [ { name := "d1", nspace := "default",
          labels := [("app-id", "b1"), ("managed-by", "k8s-service-provider")],
          readyReplicas := 0, specReplicas := 1 },
        { name := "d2", nspace := "default",
          labels := [("app-id", "b2"), ("managed-by", "k8s-service-provider")],
          readyReplicas := 0, specReplicas := 1 } ],
    services := [], secrets := [], vms := [], namespaces := ["default"] }

/-- A list request with limit 1 and offset 0, kind filter `container`. -/
def c2Req : ListDeploymentsRequest :=
  { nspace := "", kind := "container", limit := 1, offset := 0 }

/-- Counterexample to C2: with two managed container deployments and limit
1, the reported Total is 1, while the number of matching resources in the
cluster is 2 — Total only counts the resources surviving the per-kind
truncation. -/
theorem listDeployments_total_counterexample :
    (DeploymentService.listDeployments c2Cluster c2Req).pagination.total = 1 ∧
    claimMatchingTotal c2Cluster c2Req = 2 ∧
    (DeploymentService.listDeployments c2Cluster c2Req).pagination.total ≠
      (claimMatchingTotal c2Cluster c2Req : Int) := by
  decide

/-- C2 (amended): `Total` equals the length of the merged list that each
sub-service returns after truncating its own result to at most `Limit`
entries (with offset 0): per included kind the contribution is
`min Limit (number of matching resources)`, so `Total` can undercount the
matching resources in the cluster. -/
theorem listDeployments_total_truncated (c : ClusterState)
    (req : ListDeploymentsRequest) (hL : 1 ≤ req.limit) :
    (DeploymentService.listDeployments c req).pagination.total =
      (((if req.kind = "" ∨ req.kind = "container" then
          min req.limit.toNat (ContainerService.managedDeploymentsIn c req.nspace).length
         else 0) +
        (if req.kind = "" ∨ req.kind = "vm" then
          min req.limit.toNat (VMService.managedVMsIn c req.nspace).length
         else 0) : Nat) : Int) := by
  have h0 : (0:Int) ≤ req.limit := by omega
  by_cases hc : req.kind = "" ∨ req.kind = "container" <;>
    by_cases hv : req.kind = "" ∨ req.kind = "vm" <;>
      simp [DeploymentService.listDeployments, hc, hv,
        ContainerService.listContainers, VMService.listVMs,
        listLoop_zero_offset_length _ _ _ h0]

/-- Witness for C2 (amended) at the counterexample cluster: the reported
Total is `min 1 2 + 0 = 1`. -/
theorem listDeployments_total_truncated_witness :
    1 ≤ c2Req.limit ∧
    (DeploymentService.listDeployments c2Cluster c2Req).pagination.total = 1 := by
  have h := listDeployments_total_truncated c2Cluster c2Req (by decide)
  exact ⟨by decide, by rw [h]; decide⟩

/-! ## C3: ID uniqueness check of CreateDeployment -/

/-- C3: `CreateDeployment` first looks the ID up via `GetDeploymentByID`;
when the ID exists it returns the already-exists conflict, when multiple
exist it returns the multiple-found error, and in both cases the cluster is
unchanged (no sub-service create was invoked); the cluster can only change
when the lookup reported not-found. -/
theorem createDeployment_id_uniqueness (c : ClusterState)
    (req : DeploymentRequest) (id gen : String) :
    (∀ resp, DeploymentService.getDeploymentByID c id = .ok resp →
      DeploymentService.createDeployment c req id gen =
        (c, .error (.deploymentAlreadyExists id resp.metadata.nspace resp.kind))) ∧
    (∀ e, DeploymentService.getDeploymentByID c id = .error e →
      IsMultipleFoundError e = true →
      DeploymentService.createDeployment c req id gen = (c, .error e)) ∧
    ((DeploymentService.createDeployment c req id gen).1 ≠ c →
      ∃ e, DeploymentService.getDeploymentByID c id = .error e ∧
        IsNotFoundError e = true) := by
  refine ⟨?_, ?_, ?_⟩
  · intro resp h
    simp [DeploymentService.createDeployment, h]
  · intro e h hm
    simp [DeploymentService.createDeployment, h, hm]
  · intro hne
    cases hres : DeploymentService.getDeploymentByID c id with
    | ok resp =>
        exact absurd (by simp [DeploymentService.createDeployment, hres]) hne
    | error e =>
        by_cases hm : IsMultipleFoundError e = true
        · exact absurd (by simp [DeploymentService.createDeployment, hres, hm]) hne
        · by_cases hn : IsNotFoundError e = true
          · exact ⟨e, rfl, hn⟩
          · exact absurd
              (by simp [DeploymentService.createDeployment, hres, hm, hn]) hne

/-- A cluster already holding a container deployment with `app-id = "x1"`. -/
def c3Cluster : ClusterState :=
  { deployments :=
      [ { name := "old", nspace := "team",
          labels := [("app-id", "x1"), ("managed-by", "k8s-service-provider")],
          readyReplicas := 0, specReplicas := 1 } ],
    services := [], secrets := [], vms := [], namespaces := ["team"] }

/-- A container create request. -/
def c3Req : DeploymentRequest :=
  { kind := "container",
    metadata := { name := "app", nspace := "team", labels := [] },
    spec := .containerSpec { container := { image := "nginx", replicas := some 1, ports := [] } } }

/-- Witness for C3: creating with an ID that already belongs to a container
deployment returns the already-exists conflict and leaves the cluster
unchanged. -/
theorem createDeployment_id_uniqueness_witness :
    DeploymentService.createDeployment c3Cluster c3Req "x1" "g" =
      (c3Cluster, .error (.deploymentAlreadyExists "x1" "team" "container")) :=
  (createDeployment_id_uniqueness c3Cluster c3Req "x1" "g").1 _ rfl

/-! ## C4: kind-based dispatch of CreateDeployment and UpdateDeployment -/

/-- C4: `UpdateDeployment` dispatches on the request kind unconditionally;
`CreateDeployment` dispatches the same way once the uniqueness lookup
reported not-found.  Kind `container` invokes exactly the container
sub-service, kind `vm` exactly the VM sub-service, and any other kind yields
the unsupported-deployment-kind error with the cluster unchanged. -/
theorem deployment_kind_dispatch (c : ClusterState) (req : DeploymentRequest)
    (id gen : String) :
    (req.kind = "container" →
      DeploymentService.updateDeployment c req id gen =
        ContainerService.updateContainer c req id) ∧
    (req.kind = "vm" →
      DeploymentService.updateDeployment c req id gen =
        VMService.updateVM c req id gen) ∧
    (req.kind ≠ "container" → req.kind ≠ "vm" →
      DeploymentService.updateDeployment c req id gen =
        (c, .error (.other ("unsupported deployment kind: " ++ req.kind)))) ∧
    (DeploymentService.getDeploymentByID c id = .error (.deploymentNotFound id none) →
      (req.kind = "container" →
        DeploymentService.createDeployment c req id gen =
          ContainerService.createContainer c req id) ∧
      (req.kind = "vm" →
        DeploymentService.createDeployment c req id gen =
          VMService.createVM c req id gen) ∧
      (req.kind ≠ "container" → req.kind ≠ "vm" →
        DeploymentService.createDeployment c req id gen =
          (c, .error (.other ("unsupported deployment kind: " ++ req.kind))))) := by
  refine ⟨?_, ?_, ?_, ?_⟩
  · intro h; simp [DeploymentService.updateDeployment, h]
  · intro h
    by_cases hc : req.kind = "container"
    · rw [hc] at h; exact absurd h (by decide)
    · simp [DeploymentService.updateDeployment, h, hc]
  · intro h1 h2; simp [DeploymentService.updateDeployment, h1, h2]
  · intro hnf
    refine ⟨?_, ?_, ?_⟩
    · intro h
      simp [DeploymentService.createDeployment, hnf, IsMultipleFoundError,
        IsNotFoundError, h]
    · intro h
      by_cases hc : req.kind = "container"
      · rw [hc] at h; exact absurd h (by decide)
      · simp [DeploymentService.createDeployment, hnf, IsMultipleFoundError,
          IsNotFoundError, h, hc]
    · intro h1 h2
      simp [DeploymentService.createDeployment, hnf, IsMultipleFoundError,
        IsNotFoundError, h1, h2]

/-- A small VM configuration without SSH key fields. -/
def c4VMConfig : VMConfig :=
  { ram := 2, cpu := 1, os := "fedora", sshPublicKey := none, sshKeyName := none }

/-- A VM create request with an unsupported sibling used for the dispatch
witness. -/
def c4Req : DeploymentRequest :=
  { kind := "vm",
    metadata := { name := "box", nspace := "", labels := [] },
    spec := .vmSpec { vm := c4VMConfig } }

/-- The empty cluster. -/
def emptyCluster : ClusterState :=
  { deployments := [], services := [], secrets := [], vms := [], namespaces := [] }

/-- Witness for C4: on the empty cluster (where the lookup reports
not-found) a `vm` create request is routed exactly to the VM sub-service,
and an update request with an unknown kind is rejected unchanged. -/
theorem deployment_kind_dispatch_witness :
    DeploymentService.createDeployment emptyCluster c4Req "v9" "g" =
      VMService.createVM emptyCluster c4Req "v9" "g" ∧
    DeploymentService.updateDeployment emptyCluster
        { c4Req with kind := "juggernaut" } "v9" "g" =
      (emptyCluster, .error (.other "unsupported deployment kind: juggernaut")) := by
  have h := deployment_kind_dispatch emptyCluster c4Req "v9" "g"
  have h2 := deployment_kind_dispatch emptyCluster
    { c4Req with kind := "juggernaut" } "v9" "g"
  exact ⟨(h.2.2.2 rfl).2.1 rfl, h2.2.2.1 (by decide) (by decide)⟩

/-! ## C5: HTTP status mapping of the deployment handlers -/

/-- C5: for every service-layer error, GET and DELETE of
`/api/v1/deployments/:id` respond 409 exactly on a multiple-found error,
404 exactly on a not-found error and 500 on every other error, while POST
of `/api/v1/deployments` responds 409 exactly on a conflict error
(already-exists or multiple-found) and 500 on every other error. -/
theorem handler_error_status_mapping (e : DeploymentError) :
    (Handler.getDeploymentErrorStatus e = 409 ↔ IsMultipleFoundError e = true) ∧
    (Handler.getDeploymentErrorStatus e = 404 ↔ IsNotFoundError e = true) ∧
    (Handler.getDeploymentErrorStatus e = 500 ↔
      (IsMultipleFoundError e = false ∧ IsNotFoundError e = false)) ∧
    Handler.deleteDeploymentErrorStatus e = Handler.getDeploymentErrorStatus e ∧
    (Handler.createDeploymentErrorStatus e = 409 ↔ IsConflictError e = true) ∧
    (Handler.createDeploymentErrorStatus e = 500 ↔ IsConflictError e = false) := by
  cases e <;>
    simp [Handler.getDeploymentErrorStatus, Handler.deleteDeploymentErrorStatus,
      Handler.createDeploymentErrorStatus, IsMultipleFoundError, IsNotFoundError,
      IsConflictError]

/-! ## C7: the registered REST surface -/

/-- C7: the deployment router registers POST and GET on
`/api/v1/deployments`, GET, PUT and DELETE on `/api/v1/deployments/:id` and
GET `/api/v1/health`, the namespace router registers POST
`/api/v1/namespaces` and GET `/api/v1/health`, and no other routes. -/
theorem registered_routes :
    deploymentRoutes =
      [ { method := "GET", path := "/api/v1/health" },
        { method := "POST", path := "/api/v1/deployments" },
        { method := "GET", path := "/api/v1/deployments" },
        { method := "GET", path := "/api/v1/deployments/:id" },
        { method := "PUT", path := "/api/v1/deployments/:id" },
        { method := "DELETE", path := "/api/v1/deployments/:id" } ] ∧
    namespaceRoutes =
      [ { method := "POST", path := "/api/v1/namespaces" },
        { method := "GET", path := "/api/v1/health" } ] := by
  constructor <;> rfl

/-! ## C8: two listeners sharing one Kubernetes client -/

/-- C8: `main` configures exactly two HTTP servers — the deployment server
on the configured port and the namespace server on port 8081 — and both
services are constructed from the single client handle created once in
`main`.  The wiring itself is a pure construction: the repository's own code
adds no lock, transaction or ordering mechanism between the two servers. -/
theorem main_two_servers_shared_client (cfg : ServerConfig) (client : K8sClient) :
    (mainWiring cfg client).servers =
      [ { host := cfg.host, port := cfg.port, routes := deploymentRoutes },
        { host := cfg.host, port := 8081, routes := namespaceRoutes } ] ∧
    (mainWiring cfg client).servers.length = 2 ∧
    (mainWiring cfg client).deployService.client =
      (mainWiring cfg client).namespaceService.client := by
  exact ⟨rfl, rfl, rfl⟩

/-! ## C9: when GetDeploymentByID reports a conflict -/

/-- C9: `GetDeploymentByID` reports the multiple-found conflict exactly when
the ID matches both a container deployment and a VM; when two or more
resources of one single kind match (and none of the other kind), the first
resource of that kind's list result is returned as the unique match and no
conflict is raised. -/
theorem getDeploymentByID_conflict_only_across_kinds (c : ClusterState)
    (id : String) :
    ((∃ e, DeploymentService.getDeploymentByID c id = .error e ∧
        IsMultipleFoundError e = true) ↔
      (ContainerService.deploymentsMatchingID c id ≠ [] ∧
        VMService.vmsMatchingID c id ≠ [])) ∧
    (∀ d rest, ContainerService.deploymentsMatchingID c id = d :: rest →
      VMService.vmsMatchingID c id = [] →
      DeploymentService.getDeploymentByID c id = .ok (containerGetResponse id d)) ∧
    (∀ v rest, VMService.vmsMatchingID c id = v :: rest →
      ContainerService.deploymentsMatchingID c id = [] →
      DeploymentService.getDeploymentByID c id = .ok (vmGetResponse id v)) := by
  rcases hc : ContainerService.deploymentsMatchingID c id with _ | ⟨d, ds⟩ <;>
    rcases hv : VMService.vmsMatchingID c id with _ | ⟨v, vs⟩ <;>
      refine ⟨?_, ?_, ?_⟩ <;>
        simp [DeploymentService.getDeploymentByID, ContainerService.getContainer,
          VMService.getVM, hc, hv, IsMultipleFoundError]

/-- First container deployment carrying `app-id = "dup"`. -/
def c9DepOne : K8sDeployment :=
  { name := "one", nspace := "ns1",
    labels := [("app-id", "dup"), ("managed-by", "k8s-service-provider")],
    readyReplicas := 0, specReplicas := 1 }

/-- Second container deployment carrying the same `app-id = "dup"`. -/
def c9DepTwo : K8sDeployment :=
  { name := "two", nspace := "ns2",
    labels := [("app-id", "dup"), ("managed-by", "k8s-service-provider")],
    readyReplicas := 0, specReplicas := 1 }

/-- A cluster with two container deployments in different namespaces sharing
`app-id = "dup"`, and no VM. -/
def c9Cluster : ClusterState :=
  { deployments := [c9DepOne, c9DepTwo],
    services := [], secrets := [], vms := [], namespaces := ["ns1", "ns2"] }

/-- Witness for C9: with two same-kind matches and no VM, the first listed
container deployment is returned and no conflict error is raised. -/
theorem getDeploymentByID_conflict_only_across_kinds_witness :
    DeploymentService.getDeploymentByID c9Cluster "dup" =
      .ok (containerGetResponse "dup" c9DepOne) :=
  (getDeploymentByID_conflict_only_across_kinds c9Cluster "dup").2.1
    c9DepOne [c9DepTwo] (by decide) (by decide)

/-! ## C10: update is delete-then-recreate and not atomic -/

theorem effectiveNs_idem (s : String) : effectiveNs (effectiveNs s) = effectiveNs s := by
  by_cases h : s = "" <;> simp [effectiveNs, h]

/-- C10: `UpdateContainer` and `UpdateVM` delete the existing resources
first and recreate them; the delete result is discarded (only logged), the
returned result is exactly the result of the create step on the post-delete
state, and when the create step fails the previously existing deployment
has already been removed — no resource matching the ID remains in the
effective namespace, so the prior state is not preserved on error. -/
theorem update_is_delete_then_recreate (c : ClusterState)
    (req : DeploymentRequest) (id gen : String) :
    (ContainerService.updateContainer c req id).2 =
      (ContainerService.createContainer
        (ContainerService.deleteContainer c id
          (effectiveNs req.metadata.nspace)).1 req id).2 ∧
    (VMService.updateVM c req id gen).2 =
      (VMService.createVM
        (VMService.deleteVM c id (effectiveNs req.metadata.nspace)).1
        req id gen).2 ∧
    ((∀ cs, req.spec ≠ .containerSpec cs) →
      (ContainerService.updateContainer c req id).2 =
        .error (.other "invalid container spec format") ∧
      ∀ d ∈ (ContainerService.updateContainer c req id).1.deployments,
        ¬(d.nspace = effectiveNs req.metadata.nspace ∧
          matchesSelector (BuildDeploymentSelector id) d.labels = true)) ∧
    ((∀ vs, req.spec ≠ .vmSpec vs) →
      (VMService.updateVM c req id gen).2 =
        .error (.other "invalid VM spec format") ∧
      ∀ v ∈ (VMService.updateVM c req id gen).1.vms,
        ¬(v.nspace = effectiveNs req.metadata.nspace ∧
          matchesSelector (BuildDeploymentSelector id) v.labels = true)) := by
  refine ⟨rfl, rfl, ?_, ?_⟩
  · intro hspec
    have hcc : ∀ x : ClusterState, ContainerService.createContainer x req id =
        (x, .error (.other "invalid container spec format")) := by
      intro x
      cases h : req.spec with
      | containerSpec cs => exact absurd h (hspec cs)
      | vmSpec vs => simp [ContainerService.createContainer, h]
      | rawSpec s => simp [ContainerService.createContainer, h]
    have hupd : ContainerService.updateContainer c req id =
        ((ContainerService.deleteContainer c id
          (effectiveNs req.metadata.nspace)).1,
          .error (.other "invalid container spec format")) := hcc _
    rw [hupd]
    refine ⟨rfl, ?_⟩
    intro d hd hcontra
    simp only [ContainerService.deleteContainer, effectiveNs_idem,
      List.mem_filter] at hd
    have h2 := hd.2
    simp [hcontra.1, hcontra.2] at h2
  · intro hspec
    have hcv : ∀ x : ClusterState, VMService.createVM x req id gen =
        (x, .error (.other "invalid VM spec format")) := by
      intro x
      cases h : req.spec with
      | containerSpec cs => simp [VMService.createVM, h]
      | vmSpec vs => exact absurd h (hspec vs)
      | rawSpec s => simp [VMService.createVM, h]
    have hupd : VMService.updateVM c req id gen =
        ((VMService.deleteVM c id (effectiveNs req.metadata.nspace)).1,
          .error (.other "invalid VM spec format")) := hcv _
    rw [hupd]
    refine ⟨rfl, ?_⟩
    intro v hv hcontra
    simp only [VMService.deleteVM, effectiveNs_idem, List.mem_filter] at hv
    have h2 := hv.2
    simp [hcontra.1, hcontra.2] at h2

/-- A cluster holding one container deployment with `app-id = "u1"` in
namespace `default`. -/
def c10Cluster : ClusterState :=
  { deployments :=
      [ { name := "victim", nspace := "default",
          labels := [("app-id", "u1"), ("managed-by", "k8s-service-provider")],
          readyReplicas := 0, specReplicas := 1 } ],
    services := [], secrets := [], vms := [], namespaces := ["default"] }

/-- An update request whose spec is a VM spec, so the container create step
fails after the delete already ran. -/
def c10Req : DeploymentRequest :=
  { kind := "container",
    metadata := { name := "victim", nspace := "", labels := [] },
    spec := .vmSpec { vm := c4VMConfig } }

/-- Witness for C10: updating the existing container deployment with a
request whose create step fails removes the prior deployment and returns
the create-step error. -/
theorem update_is_delete_then_recreate_witness :
    (ContainerService.updateContainer c10Cluster c10Req "u1").2 =
      .error (.other "invalid container spec format") ∧
    (ContainerService.updateContainer c10Cluster c10Req "u1").1.deployments = [] := by
  have h := (update_is_delete_then_recreate c10Cluster c10Req "u1" "g").2.2.1
    (by intro cs hcs; simp [c10Req] at hcs)
  exact ⟨h.1, by decide⟩

/-! ## C6: the app-id label convention -/

theorem ensureNamespace_deployments (c : ClusterState) (nsp : String) :
    (ensureNamespace c nsp).deployments = c.deployments := by
  unfold ensureNamespace; split <;> rfl

theorem ensureNamespace_services (c : ClusterState) (nsp : String) :
    (ensureNamespace c nsp).services = c.services := by
  unfold ensureNamespace; split <;> rfl

theorem ensureNamespace_secrets (c : ClusterState) (nsp : String) :
    (ensureNamespace c nsp).secrets = c.secrets := by
  unfold ensureNamespace; split <;> rfl

theorem ensureNamespace_vms (c : ClusterState) (nsp : String) :
    (ensureNamespace c nsp).vms = c.vms := by
  unfold ensureNamespace; split <;> rfl

theorem ensureSSHKeySecret_vms (c : ClusterState) (nsp : String)
    (cfg : VMConfig) (id gen : String) :
    (VMService.ensureSSHKeySecret c nsp cfg id gen).1.vms = c.vms := by
  unfold VMService.ensureSSHKeySecret VMService.createSSHKeySecret
  repeat' split
  all_goals rfl

theorem ensureSSHKeySecret_secrets_mem (c : ClusterState) (nsp : String)
    (cfg : VMConfig) (id gen : String) :
    ∀ s ∈ (VMService.ensureSSHKeySecret c nsp cfg id gen).1.secrets,
      s ∈ c.secrets ∨ lookupLabel s.labels LabelAppID = some id := by
  intro s hs
  unfold VMService.ensureSSHKeySecret at hs
  repeat' split at hs
  all_goals
    first
    | exact Or.inl hs
    | (simp only [VMService.createSSHKeySecret, List.mem_append,
         List.mem_singleton] at hs
       rcases hs with hs | hs
       · exact Or.inl hs
       · subst hs
         exact Or.inr (by simp [lookupLabel_buildLabels_appID]))

/-- C6: every Kubernetes resource created for deployment `id` — the
Deployment and Service of a container, the VirtualMachine and the SSH-key
Secret of a VM — carries the label `app-id = id` (conjuncts 1-4); the
per-ID reads depend only on the resources selected by the `app-id=<id>`
selector (conjuncts 5-6); and the per-ID deletes remove exactly the
resources the selector (with the delete's namespace scope) picks out
(conjuncts 7-10, where the Secrets of a VM are either untouched or filtered
by the same selector). -/
theorem app_id_label_convention (c : ClusterState) (req : DeploymentRequest)
    (id gen nsp : String) :
    (∀ d ∈ (ContainerService.createContainer c req id).1.deployments,
      d ∈ c.deployments ∨ lookupLabel d.labels LabelAppID = some id) ∧
    (∀ s ∈ (ContainerService.createContainer c req id).1.services,
      s ∈ c.services ∨ lookupLabel s.labels LabelAppID = some id) ∧
    (∀ v ∈ (VMService.createVM c req id gen).1.vms,
      v ∈ c.vms ∨ lookupLabel v.labels LabelAppID = some id) ∧
    (∀ s ∈ (VMService.createVM c req id gen).1.secrets,
      s ∈ c.secrets ∨ lookupLabel s.labels LabelAppID = some id) ∧
    (ContainerService.getContainer c id =
      ContainerService.getContainer
        { c with deployments := ContainerService.deploymentsMatchingID c id } id) ∧
    (VMService.getVM c id =
      VMService.getVM { c with vms := VMService.vmsMatchingID c id } id) ∧
    (∀ d, d ∈ (ContainerService.deleteContainer c id nsp).1.deployments ↔
      (d ∈ c.deployments ∧ ¬(d.nspace = effectiveNs nsp ∧
        matchesSelector (BuildDeploymentSelector id) d.labels = true))) ∧
    (∀ s, s ∈ (ContainerService.deleteContainer c id nsp).1.services ↔
      (s ∈ c.services ∧ ¬(s.nspace = effectiveNs nsp ∧
        matchesSelector (BuildDeploymentSelector id) s.labels = true))) ∧
    (∀ v, v ∈ (VMService.deleteVM c id nsp).1.vms ↔
      (v ∈ c.vms ∧ ¬(v.nspace = effectiveNs nsp ∧
        matchesSelector (BuildDeploymentSelector id) v.labels = true))) ∧
    ((VMService.deleteVM c id nsp).1.secrets = c.secrets ∨
      (VMService.deleteVM c id nsp).1.secrets =
        c.secrets.filter (fun s => !(s.nspace = effectiveNs nsp &&
          matchesSelector (BuildDeploymentSelector id) s.labels))) := by
  refine ⟨?_, ?_, ?_, ?_, ?_, ?_, ?_, ?_, ?_, ?_⟩
  · intro d hd
    cases h : req.spec with
    | containerSpec cs =>
        have hred : (ContainerService.createContainer c req id).1.deployments =
            (ensureNamespace c (effectiveNs req.metadata.nspace)).deployments ++
              [ { name := req.metadata.name ++ "-" ++ id.take 8,
                  nspace := effectiveNs req.metadata.nspace,
                  labels := mergeLabels req.metadata.labels
                    (BuildDeploymentLabels id req.metadata.name),
                  readyReplicas := 0,
                  specReplicas := cs.container.replicas.getD 1 } ] := by
          by_cases hp : cs.container.ports = [] <;>
            simp [ContainerService.createContainer, h, hp,
              ContainerService.createK8sDeployment, ContainerService.createK8sService]
        rw [hred, ensureNamespace_deployments, List.mem_append,
          List.mem_singleton] at hd
        rcases hd with hd | hd
        · exact Or.inl hd
        · subst hd
          exact Or.inr (by
            simpa using lookupLabel_merge_appID req.metadata.labels id req.metadata.name)
    | vmSpec vs => simp [ContainerService.createContainer, h] at hd; exact Or.inl hd
    | rawSpec s => simp [ContainerService.createContainer, h] at hd; exact Or.inl hd
  · intro s hs
    cases h : req.spec with
    | containerSpec cs =>
        by_cases hp : cs.container.ports = []
        · have hred : (ContainerService.createContainer c req id).1.services =
              (ensureNamespace c (effectiveNs req.metadata.nspace)).services := by
            simp [ContainerService.createContainer, h, hp,
              ContainerService.createK8sDeployment, ContainerService.createK8sService]
          rw [hred, ensureNamespace_services] at hs
          exact Or.inl hs
        · have hred : (ContainerService.createContainer c req id).1.services =
              (ensureNamespace c (effectiveNs req.metadata.nspace)).services ++
                [ { name := req.metadata.name ++ "-service-" ++ id.take 8,
                    nspace := effectiveNs req.metadata.nspace,
                    labels := mergeLabels req.metadata.labels
                      (BuildDeploymentLabels id req.metadata.name) } ] := by
            simp [ContainerService.createContainer, h, hp,
              ContainerService.createK8sDeployment, ContainerService.createK8sService]
          rw [hred, ensureNamespace_services, List.mem_append,
            List.mem_singleton] at hs
          rcases hs with hs | hs
          · exact Or.inl hs
          · subst hs
            exact Or.inr (by
              simpa using lookupLabel_merge_appID req.metadata.labels id req.metadata.name)
    | vmSpec vs => simp [ContainerService.createContainer, h] at hs; exact Or.inl hs
    | rawSpec s => simp [ContainerService.createContainer, h] at hs; exact Or.inl hs
  · intro v hv
    cases h : req.spec with
    | vmSpec vs =>
        simp only [VMService.createVM, h] at hv
        rcases hE : VMService.ensureSSHKeySecret
            (ensureNamespace c (effectiveNs req.metadata.nspace))
            (effectiveNs req.metadata.nspace) vs.vm id gen with ⟨c2, res⟩
        have hc2vms : c2.vms = c.vms := by
          have h1 := ensureSSHKeySecret_vms
            (ensureNamespace c (effectiveNs req.metadata.nspace))
            (effectiveNs req.metadata.nspace) vs.vm id gen
          rw [hE] at h1
          rw [h1, ensureNamespace_vms]
        cases res with
        | error e =>
            rw [hE] at hv
            simp only at hv
            rw [hc2vms] at hv
            exact Or.inl hv
        | ok pair =>
            rw [hE] at hv
            obtain ⟨sname, wasCreated⟩ := pair
            simp only [List.mem_append, List.mem_singleton] at hv
            rcases hv with hv | hv
            · rw [hc2vms] at hv; exact Or.inl hv
            · subst hv
              refine Or.inr ?_
              cases wasCreated <;>
                simp [lookupLabel_buildLabels_appID,
                  lookupLabel_buildLabels_marked_appID]
    | containerSpec cs => simp [VMService.createVM, h] at hv; exact Or.inl hv
    | rawSpec s => simp [VMService.createVM, h] at hv; exact Or.inl hv
  · intro s hs
    cases h : req.spec with
    | vmSpec vs =>
        simp only [VMService.createVM, h] at hs
        rcases hE : VMService.ensureSSHKeySecret
            (ensureNamespace c (effectiveNs req.metadata.nspace))
            (effectiveNs req.metadata.nspace) vs.vm id gen with ⟨c2, res⟩
        have hsec := ensureSSHKeySecret_secrets_mem
          (ensureNamespace c (effectiveNs req.metadata.nspace))
          (effectiveNs req.metadata.nspace) vs.vm id gen
        rw [hE] at hsec
        have hbase : (ensureNamespace c (effectiveNs req.metadata.nspace)).secrets
            = c.secrets := ensureNamespace_secrets _ _
        cases res with
        | error e =>
            rw [hE] at hs
            simp only at hs
            rcases hsec s hs with h1 | h1
            · rw [hbase] at h1; exact Or.inl h1
            · exact Or.inr h1
        | ok pair =>
            rw [hE] at hs
            obtain ⟨sname, wasCreated⟩ := pair
            simp only at hs
            rcases hsec s hs with h1 | h1
            · rw [hbase] at h1; exact Or.inl h1
            · exact Or.inr h1
    | containerSpec cs => simp [VMService.createVM, h] at hs; exact Or.inl hs
    | rawSpec s => simp [VMService.createVM, h] at hs; exact Or.inl hs
  · have hfix : ContainerService.deploymentsMatchingID
        { c with deployments := ContainerService.deploymentsMatchingID c id } id
        = ContainerService.deploymentsMatchingID c id := by
      simp [ContainerService.deploymentsMatchingID, List.filter_filter]
    unfold ContainerService.getContainer
    rw [hfix]
  · have hfix : VMService.vmsMatchingID
        { c with vms := VMService.vmsMatchingID c id } id
        = VMService.vmsMatchingID c id := by
      simp [VMService.vmsMatchingID, List.filter_filter]
    unfold VMService.getVM
    rw [hfix]
  · intro d
    simp only [ContainerService.deleteContainer, List.mem_filter]
    constructor
    · intro ⟨h1, h2⟩
      refine ⟨h1, ?_⟩
      intro hcontra
      simp [hcontra.1, hcontra.2] at h2
    · intro ⟨h1, h2⟩
      refine ⟨h1, ?_⟩
      simp only [Bool.not_eq_true', Bool.and_eq_false_iff]
      by_cases ha : d.nspace = effectiveNs nsp
      · right
        by_cases hb : matchesSelector (BuildDeploymentSelector id) d.labels = true
        · exact absurd ⟨ha, hb⟩ h2
        · simpa using hb
      · left; simpa using ha
  · intro s
    simp only [ContainerService.deleteContainer, List.mem_filter]
    constructor
    · intro ⟨h1, h2⟩
      refine ⟨h1, ?_⟩
      intro hcontra
      simp [hcontra.1, hcontra.2] at h2
    · intro ⟨h1, h2⟩
      refine ⟨h1, ?_⟩
      simp only [Bool.not_eq_true', Bool.and_eq_false_iff]
      by_cases ha : s.nspace = effectiveNs nsp
      · right
        by_cases hb : matchesSelector (BuildDeploymentSelector id) s.labels = true
        · exact absurd ⟨ha, hb⟩ h2
        · simpa using hb
      · left; simpa using ha
  · intro v
    constructor
    · intro hv
      simp only [VMService.deleteVM, List.mem_filter] at hv
      refine ⟨?_, ?_⟩
      · have h1 := hv.1
        revert h1
        split <;> (intro h1; first | exact h1 | (split at h1 <;> exact h1))
      · have h2 := hv.2
        intro hcontra
        simp [hcontra.1, hcontra.2] at h2
    · intro ⟨hv, hns⟩
      simp only [VMService.deleteVM, List.mem_filter]
      constructor
      · split
        · split
          · exact hv
          · exact hv
        · exact hv
      · simp only [Bool.not_eq_true', Bool.and_eq_false_iff]
        by_cases h1 : v.nspace = effectiveNs nsp
        · right
          by_cases h2 : matchesSelector (BuildDeploymentSelector id) v.labels = true
          · exact absurd ⟨h1, h2⟩ hns
          · simpa using h2
        · left; simpa using h1
  · rcases hm : c.vms.filter
        (fun v => v.nspace = effectiveNs nsp &&
          matchesSelector (BuildDeploymentSelector id) v.labels) with _ | ⟨v, vs⟩
    · left; simp [VMService.deleteVM, hm]
    · by_cases hmark : (lookupLabel v.labels LabelSSHSecretCreated).getD "" = "true"
      · right; simp [VMService.deleteVM, hm, hmark]
      · left; simp [VMService.deleteVM, hm, hmark]

/-- Container configuration with one port (so a Service is also created). -/
def c6Container : ContainerConfig :=
  { image := "nginx", replicas := none,
    ports := [{ containerPort := 80, servicePort := 0 }] }

def c6Req : DeploymentRequest :=
  { kind := "container",
    metadata := { name := "app", nspace := "", labels := [("app-id", "spoof")] },
    spec := .containerSpec { container := c6Container } }

/-- The Deployment resource created for `c6Req` with ID `abcdefgh`. -/
def c6NewDeployment : K8sDeployment :=
  { name := "app-abcdefgh", nspace := "default",
    labels := mergeLabels [("app-id", "spoof")] (BuildDeploymentLabels "abcdefgh" "app"),
    readyReplicas := 0, specReplicas := 1 }

/-- Witness for C6: the Deployment created on the empty cluster carries
`app-id = abcdefgh`, even though the user labels tried to bind `app-id`
themselves. -/
theorem app_id_label_convention_witness :
    lookupLabel c6NewDeployment.labels LabelAppID = some "abcdefgh" :=
  Or.resolve_left
    ((app_id_label_convention emptyCluster c6Req "abcdefgh" "g" "default").1
      c6NewDeployment (by decide))
    (by decide)

end KSP
